import Mathlib

/-!
Verification of the quality-culture barometer's statistical scoring engine.

The Python sources (`src/core/scoring_system.py`, `src/core/validation_framework.py`,
`src/analytics/statistical_pipeline.py`) are embedded shallowly:

* pandas `Series`/`DataFrame` cells are exact rationals (`ℚ`); a cell that may be
  missing (`NaN`) is an `Option ℚ` with `none` for the missing value.  Where pandas
  comparisons meet `NaN` they yield `False`, which the embedding mirrors.
* A frame is a list of named columns (`List (String × List ℚ)`), all columns of equal
  length; where names are irrelevant a frame is a bare list of columns.
* Display rounding (`round(x, 2)` / `round(x, 3)`) is omitted: per the engine's output
  contract internal computation is full precision and rounding is for display only.
* Python code that raises (`ZeroDivisionError`) or produces a non-finite float
  (`nan`/`inf` from a zero denominator) is embedded with `Option`, `none` standing for
  the raised error or the non-finite value; doc comments note each such place.
-/

namespace Barometer

/-- Arithmetic mean of a list, `list.mean()` / `sum/len`; `0` on the empty list
(matching `ℚ` division by zero, only ever used under a non-emptiness guard or where
pandas itself returns a defined value). -/
def listMean (xs : List ℚ) : ℚ := xs.sum / xs.length

/-- Sum of squared deviations from the mean. -/
def devSq (xs : List ℚ) : ℚ := (xs.map (fun x => (x - listMean xs) ^ 2)).sum

/-- pandas sample variance (`ddof = 1`).  For fewer than two observations pandas
returns `NaN`; every caller below that can meet that case branches on the length
first, so `0` is returned here only as an unused default. -/
def sampleVar (xs : List ℚ) : ℚ :=
  if xs.length < 2 then 0 else devSq xs / ((xs.length : ℚ) - 1)

/-- Number of entries of an optionally-missing series satisfying `p`:
pandas `(series cmp c).sum()`, where a `NaN` cell compares `False`. -/
def countSat (rs : List (Option ℚ)) (p : ℚ → Bool) : ℕ :=
  rs.countP (fun o => (o.map p).getD false)

/-- The valid (non-missing) entries of a series, `series.dropna()`. -/
def validEntries (rs : List (Option ℚ)) : List ℚ := rs.filterMap id

/-- `len(series.dropna())`. -/
def validCount (rs : List (Option ℚ)) : ℕ := (validEntries rs).length

namespace ScoringSystem

/-- `NPQSScorer.promoter_threshold`. -/
def promoter_threshold : ℚ := 9

/-- `NPQSScorer.passive_range`. -/
def passive_range : ℚ × ℚ := (7, 8)

/-- `NPQSScorer.detractor_max`. -/
def detractor_max : ℚ := 6

/-- Return shape of `NPQSScorer.calculate_npqs`.  The three `_pct` fields are
`Option`s because the early return for an empty series omits those dictionary
keys altogether. -/
structure NPQSResult where
  npqs : ℚ
  promoters : ℕ
  passives : ℕ
  detractors : ℕ
  promoter_pct : Option ℚ
  passive_pct : Option ℚ
  detractor_pct : Option ℚ
  deriving Repr, DecidableEq

/-- `NPQSScorer.calculate_npqs` (src/core/scoring_system.py lines 21-53).
Counts use pandas comparisons (missing compares `False`); the denominator is
`len(responses)`, the raw series length *including* missing entries.  The
`total == 0` re-check of the source is unreachable on a non-empty series and is
therefore not a separate branch here. -/
def calculate_npqs (responses : List (Option ℚ)) : NPQSResult :=
  if responses.isEmpty then ⟨0, 0, 0, 0, none, none, none⟩
  else
    let promoters := countSat responses (fun x => promoter_threshold ≤ x)
    let passives := countSat responses (fun x => passive_range.1 ≤ x && x ≤ passive_range.2)
    let detractors := countSat responses (fun x => x ≤ detractor_max)
    let total : ℚ := responses.length
    ⟨((promoters : ℚ) - detractors) / total * 100, promoters, passives, detractors,
      some ((promoters : ℚ) / total * 100),
      some ((passives : ℚ) / total * 100),
      some ((detractors : ℚ) / total * 100)⟩

end ScoringSystem

namespace StatisticalPipeline

/-- Return shape of `QualityCultureAnalyzer.calculate_npqs_score`. -/
structure NPQSPipelineResult where
  npqs_score : ℚ
  promoters_pct : ℚ
  detractors_pct : ℚ
  passives_pct : ℚ
  n_responses : ℕ
  deriving Repr, DecidableEq

/-- `QualityCultureAnalyzer.calculate_npqs_score` (src/analytics/statistical_pipeline.py
lines 102-124), applied to the selected recommendation column.  Counts use pandas
comparisons (missing compares `False`); the denominator is
`len(recommendations.dropna())`; every ratio is guarded by `if total > 0 else 0`. -/
def calculate_npqs_score (recommendations : List (Option ℚ)) : NPQSPipelineResult :=
  let promoters := countSat recommendations (fun x => 9 ≤ x)
  let detractors := countSat recommendations (fun x => x ≤ 6)
  let total := validCount recommendations
  if total = 0 then ⟨0, 0, 0, 0, 0⟩
  else
    ⟨((promoters : ℚ) - detractors) / total * 100,
      (promoters : ℚ) / total * 100,
      (detractors : ℚ) / total * 100,
      ((total : ℚ) - promoters - detractors) / total * 100,
      total⟩

/-- Per-respondent dimension scores, `dimension_data.mean(axis=1) * 20`
(src/analytics/statistical_pipeline.py line 88), for the response rows of one
dimension's item set. -/
def individual_scores (rows : List (List ℚ)) : List ℚ :=
  rows.map (fun r => Barometer.listMean r * 20)

/-- `scores.mean()` of `calculate_dimension_scores`, the dimension's `mean_score`. -/
def mean_score (rows : List (List ℚ)) : ℚ := Barometer.listMean (individual_scores rows)

/-- `QualityCultureAnalyzer._calculate_maturity_level`
(src/analytics/statistical_pipeline.py lines 281-290), 0-100 scale.  Only the
`"level"` value of the returned dictionary is modelled; the accompanying fixed
color / description strings carry no information beyond the level. -/
def maturity_level_0_100 (score : ℚ) : String :=
  if score ≥ 80 then "Excellence"
  else if score ≥ 60 then "Amélioration"
  else if score ≥ 40 then "Développement"
  else "Initial"

end StatisticalPipeline

namespace ScoringSystem

/-- `MaturityScorer._get_maturity_level` (src/core/scoring_system.py lines 114-125),
1-5 scale. -/
def get_maturity_level (score : ℚ) : String :=
  if score ≥ 4.5 then "Optimizing"
  else if score ≥ 3.5 then "Quantitatively Managed"
  else if score ≥ 2.5 then "Defined"
  else if score ≥ 1.5 then "Managed"
  else "Initial/Ad-hoc"

/-- pandas `DataFrame.empty` for a frame given as named columns of equal length:
true when there are no columns or no rows. -/
def frameEmpty (cols : List (String × List ℚ)) : Bool :=
  cols.isEmpty || cols.any (fun c => c.2.isEmpty)

/-- Return shape of `MaturityScorer.calculate_maturity`: the overall weighted score,
its level, and the per-dimension `(name, mean, weight)` triples that were scored. -/
structure MaturityResult where
  overall_maturity : ℚ
  overall_level : String
  scored : List (String × ℚ × ℚ)
  deriving Repr, DecidableEq

/-- `MaturityScorer.calculate_maturity` (src/core/scoring_system.py lines 67-112)
with a supplied weights mapping.  A dimension (column) is scored iff its name is a
key of `weights`; `total_weight` is the sum of the matched weights; the overall
score is the weighted sum of column means over `total_weight`.  When
`total_weight = 0` the Python division `sum(...) / total_weight` raises
`ZeroDivisionError`; that raised error is `none` here.  The early return for an
empty frame yields overall maturity `0` at the lowest level. -/
def calculate_maturity (cols : List (String × List ℚ)) (weights : List (String × ℚ)) :
    Option MaturityResult :=
  if frameEmpty cols then some ⟨0, "Initial/Ad-hoc", []⟩
  else
    let scored := cols.filterMap (fun c =>
      (List.lookup c.1 weights).map (fun w => (c.1, Barometer.listMean c.2, w)))
    let total_weight := (scored.map (fun d => d.2.2)).sum
    if total_weight = 0 then none
    else
      let overall := (scored.map (fun d => d.2.1 * d.2.2)).sum / total_weight
      some ⟨overall, get_maturity_level overall, scored⟩

end ScoringSystem

/-- Transpose of a frame given as equal-length columns into its list of rows
(row `i` collects entry `i` of every column).  All frames in this development
have equal-length columns, the invariant pandas maintains for a `DataFrame`. -/
def transposeRows (cols : List (List ℚ)) : List (List ℚ) :=
  match cols with
  | [] => []
  | c :: _ => (List.range c.length).map (fun i => cols.map (fun col => col.getD i 0))

namespace ScoringSystem

/-- Row sums of a frame given as columns, `data.sum(axis=1)`. -/
def rowSums (cols : List (List ℚ)) : List ℚ := (Barometer.transposeRows cols).map List.sum

/-- pandas `DataFrame.empty` for an unnamed frame of equal-length columns. -/
def frameEmptyCols (cols : List (List ℚ)) : Bool :=
  cols.isEmpty || cols.any List.isEmpty

/-- Return shape of `StatisticalValidator.calculate_reliability`.  `cronbach_alpha`
is `none` when the Python computation produces a non-finite float (`NaN` from the
one-row variance, or `NaN`/`-inf` from dividing by a zero total variance); the
`n_items`/`n_responses` keys, absent from the degenerate early return and unused by
any claim, are not modelled. -/
structure ReliabilityResult where
  cronbach_alpha : Option ℚ
  reliable : Bool
  deriving Repr, DecidableEq

/-- `StatisticalValidator.calculate_reliability` (src/core/scoring_system.py lines
184-211).  Empty frame or fewer than two items: alpha `0`, not reliable.  Otherwise
`alpha = (k/(k-1)) * (1 - sum(item_variances)/total_variance)` with *no*
non-negativity floor and *no* zero-variance guard: a single row makes every pandas
variance `NaN`, and a zero `total_variance` makes the division non-finite — both
are `none` (and compare `False` against the `0.7` threshold, as `NaN`/`-inf` do). -/
def calculate_reliability (cols : List (List ℚ)) : ReliabilityResult :=
  if frameEmptyCols cols || cols.length < 2 then ⟨some 0, false⟩
  else
    let n := (cols.headD []).length
    if n < 2 then ⟨none, false⟩
    else
      let total_variance := Barometer.sampleVar (rowSums cols)
      if total_variance = 0 then ⟨none, false⟩
      else
        let alpha := (cols.length : ℚ) / ((cols.length : ℚ) - 1) *
          (1 - (cols.map Barometer.sampleVar).sum / total_variance)
        ⟨some alpha, decide ((7 : ℚ) / 10 ≤ alpha)⟩

end ScoringSystem

namespace ValidationFramework

/-- `PsychometricValidator._calculate_cronbach_alpha`
(src/core/validation_framework.py lines 251-264).  Empty frame or fewer than two
items: `0`.  One row: every pandas variance is `NaN`, `NaN == 0` is `False`, the
alpha expression is `NaN`, and Python's `max(0, nan)` returns its first argument
`0` — embedded as the explicit `0` branch.  Zero total variance: `0`.  Otherwise
the alpha formula clamped below by `max 0`. -/
def calculate_cronbach_alpha (cols : List (List ℚ)) : ℚ :=
  if ScoringSystem.frameEmptyCols cols || cols.length < 2 then 0
  else
    let n := (cols.headD []).length
    if n < 2 then 0
    else
      let total_var := Barometer.sampleVar (ScoringSystem.rowSums cols)
      if total_var = 0 then 0
      else
        max 0 ((cols.length : ℚ) / ((cols.length : ℚ) - 1) *
          (1 - (cols.map Barometer.sampleVar).sum / total_var))

/-- Return shape of `PsychometricValidator.assess_sample_adequacy`. -/
structure SampleAdequacy where
  n_responses : ℕ
  n_items : ℕ
  ratio : ℚ
  adequacy_5_1 : Bool
  adequacy_10_1 : Bool
  kline_adequate : Bool
  recommended_minimum : ℕ
  deriving Repr, DecidableEq

/-- `PsychometricValidator.assess_sample_adequacy`
(src/core/validation_framework.py lines 221-249) as a function of the response
count `n` and the item count `p`.  With `p = 0` the integer division
`n_responses / n_items` raises `ZeroDivisionError` while the return dictionary is
being built, so nothing is returned: `none`. -/
def assess_sample_adequacy (n p : ℕ) : Option SampleAdequacy :=
  if p = 0 then none
  else some ⟨n, p, (n : ℚ) / p,
    decide (5 * p ≤ n), decide (10 * p ≤ n), decide (20 * p ≤ n),
    max 200 (10 * p)⟩

/-- `data[item]` column lookup by name (empty only when the item is absent, a case
every caller below first excludes via `hasItems`). -/
def lookupCol (data : List (String × List ℚ)) (item : String) : List ℚ :=
  (List.lookup item data).getD []

/-- `all(i in data.columns for i in items)`. -/
def hasItems (data : List (String × List ℚ)) (items : List String) : Bool :=
  items.all (fun it => (List.lookup it data).isSome)

/-- `data[items].mean(axis=1)`: the per-respondent mean over a dimension's items. -/
def meanScores (data : List (String × List ℚ)) (items : List String) : List ℚ :=
  (Barometer.transposeRows (items.map (lookupCol data))).map Barometer.listMean

/-- Centered cross-moment `Σ (x - x̄)(y - ȳ)`. -/
def centeredDot (x y : List ℚ) : ℚ :=
  (List.zipWith (· * ·) (x.map (fun a => a - Barometer.listMean x))
    (y.map (fun b => b - Barometer.listMean y))).sum

/-- The data determining the Pearson correlation `score1.corr(score2)`:
the centered cross-moment and the product of the centered self-moments.  The
correlation itself, `fst / sqrt snd`, is irrational in general, so the pair is
stored instead and every consumer compares through it: for `snd > 0`,
`|corr| < c ↔ fst² < c² * snd`, and `snd = 0` is exactly pandas' `NaN`
correlation of a zero-variance (or degenerate-length) series. -/
def corrData (x y : List ℚ) : ℚ × ℚ :=
  (centeredDot x y, centeredDot x x * centeredDot y y)

/-- `abs(c) < 0.85` applied to a stored correlation: false on a `NaN` correlation
(`snd = 0`), else `corr² < 0.85² = 289/400`. -/
def corrBelowBound (v : ℚ × ℚ) : Bool :=
  decide (v.2 ≠ 0 ∧ 400 * v.1 ^ 2 < 289 * v.2)

/-- One Python `dict[k] = v` step on an insertion-ordered association list:
an existing key is updated in place, a new key is appended. -/
def dinsert (d : List (String × (ℚ × ℚ))) (k : String) (v : ℚ × ℚ) :
    List (String × (ℚ × ℚ)) :=
  if d.any (fun kv => kv.1 == k) then
    d.map (fun kv => if kv.1 == k then (k, v) else kv)
  else d ++ [(k, v)]

/-- The sequence of writes `correlations[f"{dim1}_{dim2}"] = corr` performed by
`PsychometricValidator._assess_discriminant_validity`
(src/core/validation_framework.py lines 317-333): one write per ordered pair of
structure entries with distinct names whose items are all present, keyed by the
underscore-join of the two names. -/
def corrWrites (data : List (String × List ℚ)) (struct : List (String × List String)) :
    List (String × (ℚ × ℚ)) :=
  struct.flatMap (fun d1 => struct.filterMap (fun d2 =>
    if d1.1 ≠ d2.1 ∧ hasItems data (d1.2 ++ d2.2) = true then
      some (d1.1 ++ "_" ++ d2.1,
        corrData (meanScores data d1.2) (meanScores data d2.2))
    else none))

/-- The `correlations` dictionary of `_assess_discriminant_validity` after all
writes, with Python-dict overwrite semantics. -/
def inter_dimension_correlations (data : List (String × List ℚ))
    (struct : List (String × List String)) : List (String × (ℚ × ℚ)) :=
  (corrWrites data struct).foldl (fun d kv => dinsert d kv.1 kv.2) []

/-- `discriminant_valid = all(abs(c) < 0.85 for c in correlations.values())`. -/
def discriminant_valid (data : List (String × List ℚ))
    (struct : List (String × List String)) : Bool :=
  ((inter_dimension_correlations data struct).map (fun kv => kv.2)).all corrBelowBound

end ValidationFramework

namespace StatisticalPipeline

/-- Squared Euclidean distance between two points. -/
def sqDist (a b : List ℚ) : ℚ := (List.zipWith (fun x y => (x - y) ^ 2) a b).sum

/-- Index of the centroid nearest to `p` (first of the minima). -/
def nearestIdx (cs : List (List ℚ)) (p : List ℚ) : ℕ :=
  let ds := cs.map (sqDist p)
  ds.indexOf (ds.foldr min (ds.headD 0))

/-- Modelled from the spec: `sklearn.cluster.KMeans(n_clusters=k, random_state=seed)
.fit_predict` is library code outside this repository.  Per §4.9 it is a
deterministic function of the seed and the data; it is modelled as assigning each
point to its nearest among `k` seed-selected initial centroids. -/
def kmeansModel (seed k : ℕ) (pts : List (List ℚ)) : List ℕ :=
  pts.map (nearestIdx ((pts.rotate seed).take k))

/-- Modelled from the spec: the library clusterer draws from the ambient random
state `g` only when no `random_state` is fixed; a fixed `random_state` makes the
result independent of `g`. -/
def kmeansWithState (random_state : Option ℕ) (g k : ℕ) (pts : List (List ℚ)) :
    List ℕ :=
  match random_state with
  | some s => kmeansModel s k pts
  | none => kmeansModel g k pts

/-- Modelled from the spec: `StandardScaler.fit_transform` (library code) rescales
each column to zero mean and unit variance; the exact z-scores involve irrational
square roots, so the deterministic stand-in divides the centered column by its
variance (zero-variance columns map to zero). -/
def scaleColumn (xs : List ℚ) : List ℚ :=
  let v := Barometer.devSq xs
  if v = 0 then xs.map (fun _ => 0)
  else xs.map (fun x => (x - Barometer.listMean xs) / v)

/-- `QualityCultureAnalyzer._determine_optimal_clusters`: the source returns the
constant 3. -/
def determine_optimal_clusters : ℕ := 3

/-- Result of `perform_clustering_analysis`: cluster count, per-respondent
assignments, and per-cluster sizes and centroids (in original score units). -/
structure ClusteringResult where
  n_clusters : ℕ
  assignments : List ℕ
  sizes : List ℕ
  centroids : List (List ℚ)
  deriving Repr, DecidableEq

/-- Mean of each column across the rows assigned to cluster `i`. -/
def clusterCentroid (rows : List (List ℚ)) (clusters : List ℕ) (i : ℕ) : List ℚ :=
  (Barometer.transposeRows ((List.zip clusters rows).filterMap
    (fun cr => if cr.1 = i then some cr.2 else none))).map Barometer.listMean

/-- `QualityCultureAnalyzer.perform_clustering_analysis`
(src/analytics/statistical_pipeline.py lines 145-189): build per-dimension mean
vectors for every fully-present dimension, standardize, cluster with
`KMeans(n_clusters=3, random_state=42)` (the seed is the hard-coded literal 42),
and report per-cluster sizes and centroids; zero usable dimensions yield zero
clusters.  `g` is the ambient random state the library would consume were no seed
fixed. -/
def perform_clustering_analysis (g : ℕ) (data : List (String × List ℚ))
    (struct : List (String × List String)) : ClusteringResult :=
  let dimension_means := struct.filterMap (fun d =>
    if ValidationFramework.hasItems data d.2 then
      some (ValidationFramework.meanScores data d.2)
    else none)
  if dimension_means.isEmpty then ⟨0, [], [], []⟩
  else
    let cluster_rows := Barometer.transposeRows dimension_means
    let scaled := Barometer.transposeRows (dimension_means.map scaleColumn)
    let k := determine_optimal_clusters
    let clusters := kmeansWithState (some 42) g k scaled
    ⟨k, clusters,
      (List.range k).map (fun i => clusters.count i),
      (List.range k).map (clusterCentroid cluster_rows clusters)⟩

end StatisticalPipeline

/-! ## Example frames for the discriminant-validity analysis

Six single-item dimensions over six respondents.  The centered columns are
pairwise orthogonal except that items `x` and `x2` are identical, so every
pairwise correlation is 0 except corr(A, B_C) = corr(B_C, A) = 1.  The
dimension names are chosen so that the underscore-joined dictionary keys of the
ordered pairs (A, B_C) and (A_B, C) coincide (both "A_B_C"), as do those of
(B_C, A) and (B, C_A) (both "B_C_A"). -/

def exCol_x : List ℚ := [1, -1, 0, 0, 0, 0]

def exCol_p : List ℚ := [0, 0, 1, -1, 0, 0]

def exCol_q : List ℚ := [1, 1, -1, -1, 0, 0]

def exCol_r : List ℚ := [0, 0, 0, 0, 1, -1]

def exCol_s : List ℚ := [1, 1, 1, 1, -2, -2]

def exData : List (String × List ℚ) :=
  [("x", exCol_x), ("x2", exCol_x), ("p", exCol_p), ("q", exCol_q),
    ("r", exCol_r), ("s", exCol_s)]

def exStruct : List (String × List String) :=
  [("A", ["x"]), ("B_C", ["x2"]), ("A_B", ["p"]), ("C", ["q"]),
    ("B", ["r"]), ("C_A", ["s"])]

/-! ## Shared lemmas about NPQS counting and the promoter-detractor ratio -/

theorem countSat_eq_countP_valid (rs : List (Option ℚ)) (p : ℚ → Bool) :
    countSat rs p = (validEntries rs).countP p := by
  induction rs with
  | nil => rfl
  | cons o t ih =>
    cases o with
    | none => simpa [countSat, validEntries, List.countP_cons] using ih
    | some x =>
      simp [countSat, validEntries, List.countP_cons] at *
      cases hx : p x <;> simp [hx, ih]

theorem countSat_le_validCount (rs : List (Option ℚ)) (p : ℚ → Bool) :
    countSat rs p ≤ validCount rs := by
  rw [countSat_eq_countP_valid]
  exact List.countP_le_length _

theorem validEntries_map_some (l : List ℚ) : validEntries (l.map some) = l := by
  simp [validEntries]

theorem validCount_le_length (rs : List (Option ℚ)) : validCount rs ≤ rs.length := by
  simpa [validCount, validEntries] using List.length_filterMap_le id rs

theorem validCount_eq_length_of_all_some (rs : List (Option ℚ))
    (h : ∀ o ∈ rs, o.isSome) : validCount rs = rs.length := by
  induction rs with
  | nil => rfl
  | cons o t ih =>
    cases o with
    | none => exact absurd (h none (by simp)) (by simp)
    | some x =>
      simp only [validCount, validEntries, List.filterMap_cons, id] at *
      simpa using ih (fun o ho => h o (by simp [ho]))

theorem countSat_eq_validCount_iff (rs : List (Option ℚ)) (p : ℚ → Bool) :
    countSat rs p = validCount rs ↔ ∀ x ∈ validEntries rs, p x = true := by
  rw [countSat_eq_countP_valid, validCount]
  exact List.countP_eq_length

theorem countSat_eq_zero_iff (rs : List (Option ℚ)) (p : ℚ → Bool) :
    countSat rs p = 0 ↔ ∀ x ∈ validEntries rs, ¬ p x = true := by
  rw [countSat_eq_countP_valid]
  exact List.countP_eq_zero

theorem ratioFormula_bounds {p d t : ℕ} (ht : 0 < t) (hp : p ≤ t) (hd : d ≤ t) :
    -100 ≤ ((p : ℚ) - d) / t * 100 ∧ ((p : ℚ) - d) / t * 100 ≤ 100 := by
  have htQ : (0 : ℚ) < t := by exact_mod_cast ht
  have hpQ : (p : ℚ) ≤ t := by exact_mod_cast hp
  have hdQ : (d : ℚ) ≤ t := by exact_mod_cast hd
  have hp0 : (0 : ℚ) ≤ p := by positivity
  have hd0 : (0 : ℚ) ≤ d := by positivity
  rw [div_mul_eq_mul_div, le_div_iff₀ htQ, div_le_iff₀ htQ]
  constructor <;> nlinarith

theorem ratioFormula_eq_100_iff {p d t : ℕ} (ht : 0 < t) (hp : p ≤ t) :
    ((p : ℚ) - d) / t * 100 = 100 ↔ (p = t ∧ d = 0) := by
  have htQ : (0 : ℚ) < t := by exact_mod_cast ht
  constructor
  · intro h
    rw [div_mul_eq_mul_div, div_eq_iff (ne_of_gt htQ)] at h
    have hpe : (p : ℚ) = t + d := by linarith
    have : p = t + d := by exact_mod_cast hpe
    omega
  · rintro ⟨rfl, rfl⟩
    push_cast
    field_simp

theorem ratioFormula_eq_neg100_iff {p d t : ℕ} (ht : 0 < t) (hd : d ≤ t) :
    ((p : ℚ) - d) / t * 100 = -100 ↔ (d = t ∧ p = 0) := by
  have htQ : (0 : ℚ) < t := by exact_mod_cast ht
  constructor
  · intro h
    rw [div_mul_eq_mul_div, div_eq_iff (ne_of_gt htQ)] at h
    have hde : (d : ℚ) = t + p := by linarith
    have : d = t + p := by exact_mod_cast hde
    omega
  · rintro ⟨rfl, rfl⟩
    push_cast
    field_simp

theorem all_promoters_iff (rs : List (Option ℚ)) :
    (countSat rs (fun x => decide ((9 : ℚ) ≤ x)) = validCount rs ∧
      countSat rs (fun x => decide (x ≤ (6 : ℚ))) = 0) ↔
    ∀ x ∈ validEntries rs, (9 : ℚ) ≤ x := by
  constructor
  · intro h x hx
    simpa using (countSat_eq_validCount_iff rs _).mp h.1 x hx
  · intro hall
    refine ⟨(countSat_eq_validCount_iff rs _).mpr (fun x hx => by simpa using hall x hx),
      (countSat_eq_zero_iff rs _).mpr (fun x hx hle => ?_)⟩
    have h9 := hall x hx
    simp only [decide_eq_true_eq] at hle
    linarith

theorem all_detractors_iff (rs : List (Option ℚ)) :
    (countSat rs (fun x => decide (x ≤ (6 : ℚ))) = validCount rs ∧
      countSat rs (fun x => decide ((9 : ℚ) ≤ x)) = 0) ↔
    ∀ x ∈ validEntries rs, x ≤ (6 : ℚ) := by
  constructor
  · intro h x hx
    simpa using (countSat_eq_validCount_iff rs _).mp h.1 x hx
  · intro hall
    refine ⟨(countSat_eq_validCount_iff rs _).mpr (fun x hx => by simpa using hall x hx),
      (countSat_eq_zero_iff rs _).mpr (fun x hx hge => ?_)⟩
    have h6 := hall x hx
    simp only [decide_eq_true_eq] at hge
    linarith

/-! ## C1 — NPQS denominator and the zero-valid-responses case -/

/-- C1 counterexample: on the column `[10, missing]` every claim-valid response is
a promoter and there are no detractors, so a denominator that excluded missing
entries would give `(1 - 0)/1 * 100 = 100`; `NPQSScorer.calculate_npqs` instead
divides by the raw length 2 and returns 50, so its denominator does not exclude
missing entries. -/
theorem npqs_denominator_counterexample :
    (ScoringSystem.calculate_npqs [some 10, none]).npqs = 50 ∧
    ((countSat [some 10, none] (fun x => decide ((9 : ℚ) ≤ x)) : ℚ) -
        countSat [some 10, none] (fun x => decide (x ≤ (6 : ℚ)))) /
      (validCount [some 10, none]) * 100 = 100 ∧
    (50 : ℚ) ≠ 100 := by
  have h9 : countSat [some 10, none] (fun x => decide ((9 : ℚ) ≤ x)) = 1 := by decide
  have h6 : countSat [some 10, none] (fun x => decide (x ≤ (6 : ℚ))) = 0 := by decide
  have hv : validCount [some 10, none] = 1 := by decide
  refine ⟨?_, ?_, by norm_num⟩
  · simp only [ScoringSystem.calculate_npqs, ScoringSystem.promoter_threshold,
      ScoringSystem.detractor_max, List.isEmpty_cons]
    rw [h9, h6]
    norm_num
  · rw [h9, h6, hv]
    norm_num

/-- C1 (amended): `QualityCultureAnalyzer.calculate_npqs_score` does use the count
of non-missing entries as denominator — its result is invariant under dropping
missing entries — and with zero valid responses it returns 0 for the score and
every percentage field with no division error.  `NPQSScorer.calculate_npqs`
divides by the raw series length including missing entries, but with zero valid
responses it too yields score 0 and zero percentages (when present) with no
division error. -/
theorem npqs_denominator_missing (rec : List (Option ℚ)) :
    StatisticalPipeline.calculate_npqs_score rec =
      StatisticalPipeline.calculate_npqs_score ((validEntries rec).map some) ∧
    (validCount rec = 0 →
      StatisticalPipeline.calculate_npqs_score rec = ⟨0, 0, 0, 0, 0⟩) ∧
    (validCount rec = 0 →
      (ScoringSystem.calculate_npqs rec).npqs = 0 ∧
      (ScoringSystem.calculate_npqs rec).promoter_pct.getD 0 = 0 ∧
      (ScoringSystem.calculate_npqs rec).passive_pct.getD 0 = 0 ∧
      (ScoringSystem.calculate_npqs rec).detractor_pct.getD 0 = 0) := by
  have hve := validEntries_map_some (validEntries rec)
  have hc : ∀ q : ℚ → Bool, countSat ((validEntries rec).map some) q = countSat rec q := by
    intro q
    rw [countSat_eq_countP_valid, countSat_eq_countP_valid, hve]
  have hv : validCount ((validEntries rec).map some) = validCount rec := by
    rw [validCount, hve]
    rfl
  refine ⟨?_, ?_, ?_⟩
  · simp only [StatisticalPipeline.calculate_npqs_score, hc, hv]
  · intro h
    simp [StatisticalPipeline.calculate_npqs_score, h]
  · intro h
    have hall : ∀ q : ℚ → Bool, countSat rec q = 0 :=
      fun q => Nat.le_zero.mp (h ▸ countSat_le_validCount rec q)
    by_cases he : rec.isEmpty
    · simp [ScoringSystem.calculate_npqs, he]
    · simp [ScoringSystem.calculate_npqs, he, hall]

/-- C1 witness: at the all-missing column `[missing]` both functions return a zero
score without a division error. -/
theorem npqs_denominator_missing_witness :
    StatisticalPipeline.calculate_npqs_score [none] = ⟨0, 0, 0, 0, 0⟩ ∧
    (ScoringSystem.calculate_npqs [none]).npqs = 0 := by
  have h := npqs_denominator_missing [none]
  exact ⟨h.2.1 (by decide), (h.2.2 (by decide)).1⟩

/-! ## C3 — NPQS range and the conditions for the extremes -/

/-- C3 counterexample: on the column `[9, missing]` every valid (non-missing)
response is a promoter, yet `NPQSScorer.calculate_npqs` returns 50, not 100, so
"npqs = 100 iff every valid response is a promoter" fails on the code as stated. -/
theorem npqs_promoter_counterexample :
    countSat [some 9, none] (fun x => decide ((9 : ℚ) ≤ x)) =
      validCount [some 9, none] ∧
    (ScoringSystem.calculate_npqs [some 9, none]).npqs = 50 ∧
    (50 : ℚ) ≠ 100 := by
  have h9 : countSat [some 9, none] (fun x => decide ((9 : ℚ) ≤ x)) = 1 := by decide
  have h6 : countSat [some 9, none] (fun x => decide (x ≤ (6 : ℚ))) = 0 := by decide
  refine ⟨by decide, ?_, by norm_num⟩
  simp only [ScoringSystem.calculate_npqs, ScoringSystem.promoter_threshold,
    ScoringSystem.detractor_max, List.isEmpty_cons]
  rw [h9, h6]
  norm_num

/-- C3 (amended): for `QualityCultureAnalyzer.calculate_npqs_score` the claim holds
in full: the score lies in [-100, 100], is 0 with zero valid responses, and — when
at least one valid response exists — is 100 iff every valid response is a promoter
(≥ 9) and -100 iff every valid response is a detractor (≤ 6).  For
`NPQSScorer.calculate_npqs` the range and the zero-valid-responses clause hold for
every input, but the two extreme-value equivalences hold only for series with no
missing entries, because its denominator is the raw series length. -/
theorem npqs_range_extremes (rec : List (Option ℚ)) :
    (-100 ≤ (StatisticalPipeline.calculate_npqs_score rec).npqs_score ∧
      (StatisticalPipeline.calculate_npqs_score rec).npqs_score ≤ 100) ∧
    (validCount rec = 0 → (StatisticalPipeline.calculate_npqs_score rec).npqs_score = 0) ∧
    (validCount rec ≠ 0 →
      ((StatisticalPipeline.calculate_npqs_score rec).npqs_score = 100 ↔
        ∀ x ∈ validEntries rec, (9 : ℚ) ≤ x)) ∧
    (validCount rec ≠ 0 →
      ((StatisticalPipeline.calculate_npqs_score rec).npqs_score = -100 ↔
        ∀ x ∈ validEntries rec, x ≤ (6 : ℚ))) ∧
    (-100 ≤ (ScoringSystem.calculate_npqs rec).npqs ∧
      (ScoringSystem.calculate_npqs rec).npqs ≤ 100) ∧
    (validCount rec = 0 → (ScoringSystem.calculate_npqs rec).npqs = 0) ∧
    ((∀ o ∈ rec, o.isSome) → rec ≠ [] →
      (((ScoringSystem.calculate_npqs rec).npqs = 100 ↔
          ∀ x ∈ validEntries rec, (9 : ℚ) ≤ x) ∧
        ((ScoringSystem.calculate_npqs rec).npqs = -100 ↔
          ∀ x ∈ validEntries rec, x ≤ (6 : ℚ)))) := by
  have hple := countSat_le_validCount rec (fun x => decide ((9 : ℚ) ≤ x))
  have hdle := countSat_le_validCount rec (fun x => decide (x ≤ (6 : ℚ)))
  refine ⟨?_, ?_, ?_, ?_, ?_, ?_, ?_⟩
  · by_cases hv : validCount rec = 0
    · simp [StatisticalPipeline.calculate_npqs_score, hv]
    · have hvpos : 0 < validCount rec := Nat.pos_of_ne_zero hv
      simp only [StatisticalPipeline.calculate_npqs_score, if_neg hv]
      exact ratioFormula_bounds hvpos hple hdle
  · intro hv
    simp [StatisticalPipeline.calculate_npqs_score, hv]
  · intro hv
    have hvpos : 0 < validCount rec := Nat.pos_of_ne_zero hv
    simp only [StatisticalPipeline.calculate_npqs_score, if_neg hv]
    rw [ratioFormula_eq_100_iff hvpos hple, ← all_promoters_iff]
  · intro hv
    have hvpos : 0 < validCount rec := Nat.pos_of_ne_zero hv
    simp only [StatisticalPipeline.calculate_npqs_score, if_neg hv]
    rw [ratioFormula_eq_neg100_iff hvpos hdle, ← all_detractors_iff]
  · by_cases he : rec.isEmpty
    · simp [ScoringSystem.calculate_npqs, he]
    · have hne : rec.length ≠ 0 := fun h => he (by simpa [List.isEmpty_iff, List.length_eq_zero] using h)
      have hnpos : 0 < rec.length := Nat.pos_of_ne_zero hne
      have hvlen := validCount_le_length rec
      simp only [ScoringSystem.calculate_npqs, he, Bool.false_eq_true, if_false,
        ScoringSystem.promoter_threshold, ScoringSystem.detractor_max]
      exact ratioFormula_bounds hnpos (le_trans hple hvlen) (le_trans hdle hvlen)
  · intro h
    have hall : ∀ q : ℚ → Bool, countSat rec q = 0 :=
      fun q => Nat.le_zero.mp (h ▸ countSat_le_validCount rec q)
    by_cases he : rec.isEmpty
    · simp [ScoringSystem.calculate_npqs, he]
    · simp [ScoringSystem.calculate_npqs, he, hall]
  · intro hsome hne
    have he : rec.isEmpty = false := by simpa [List.isEmpty_iff] using hne
    have hvn : validCount rec = rec.length := validCount_eq_length_of_all_some rec hsome
    have hnpos : 0 < rec.length := by
      cases rec with
      | nil => exact absurd rfl hne
      | cons a t => simp
    simp only [ScoringSystem.calculate_npqs, he, Bool.false_eq_true, if_false,
      ScoringSystem.promoter_threshold, ScoringSystem.detractor_max]
    constructor
    · rw [ratioFormula_eq_100_iff hnpos (hvn ▸ hple), ← all_promoters_iff, hvn]
    · rw [ratioFormula_eq_neg100_iff hnpos (hvn ▸ hdle), ← all_detractors_iff, hvn]

/-- C3 witness: two promoters with no missing entries score exactly 100 under both
implementations (the spec's end-to-end scenario B in miniature). -/
theorem npqs_range_extremes_witness :
    (StatisticalPipeline.calculate_npqs_score [some 10, some 9]).npqs_score = 100 ∧
    (ScoringSystem.calculate_npqs [some 10, some 9]).npqs = 100 := by
  have h := npqs_range_extremes [some 10, some 9]
  exact ⟨(h.2.2.1 (by decide)).mpr (by decide),
    ((h.2.2.2.2.2.2 (by decide) (by decide)).1).mpr (by decide)⟩

/-! ## C10 — result shape of `calculate_npqs` on empty vs non-empty input -/

/-- C10: on an empty response series `NPQSScorer.calculate_npqs` returns only the
zero npqs score and the three zero category counts, with the three percentage
fields absent, while every non-empty series produces all three percentage
fields. -/
theorem npqs_empty_result_shape :
    ScoringSystem.calculate_npqs ([] : List (Option ℚ)) =
      ⟨0, 0, 0, 0, none, none, none⟩ ∧
    ∀ rec : List (Option ℚ), rec ≠ [] →
      ((ScoringSystem.calculate_npqs rec).promoter_pct.isSome = true ∧
        (ScoringSystem.calculate_npqs rec).passive_pct.isSome = true ∧
        (ScoringSystem.calculate_npqs rec).detractor_pct.isSome = true) := by
  refine ⟨rfl, fun rec hne => ?_⟩
  have he : rec.isEmpty = false := by simpa [List.isEmpty_iff] using hne
  simp [ScoringSystem.calculate_npqs, he]

/-- C10 witness: a one-element series carries the percentage fields. -/
theorem npqs_empty_result_shape_witness :
    (ScoringSystem.calculate_npqs [some 5]).promoter_pct.isSome = true := by
  exact (npqs_empty_result_shape.2 [some 5] (by decide)).1

/-! ## Shared lemmas about list means -/

theorem listSum_map_mul (l : List ℚ) (c : ℚ) :
    (l.map (fun x => x * c)).sum = l.sum * c := by
  induction l with
  | nil => simp
  | cons a t ih => simp [ih, add_mul]

theorem listMean_map_mul (l : List ℚ) (c : ℚ) :
    listMean (l.map (fun x => x * c)) = listMean l * c := by
  rw [listMean, listMean, listSum_map_mul, List.length_map, mul_div_right_comm]

theorem listMean_nonneg (l : List ℚ) (h : ∀ x ∈ l, 0 ≤ x) : 0 ≤ listMean l :=
  div_nonneg (List.sum_nonneg h) (by positivity)

theorem listMean_le_bound (l : List ℚ) {b : ℚ} (hb : 0 ≤ b) (h : ∀ x ∈ l, x ≤ b) :
    listMean l ≤ b := by
  rcases List.eq_nil_or_concat l with rfl | _
  · simpa [listMean] using hb
  · have hlen : (0 : ℚ) < l.length := by
      have : l ≠ [] := by rintro rfl; simp_all
      have : 0 < l.length := List.length_pos.mpr this
      exact_mod_cast this
    rw [listMean, div_le_iff₀ hlen]
    calc l.sum ≤ l.length • b := List.sum_le_card_nsmul l b h
    _ = b * l.length := by rw [nsmul_eq_mul]; ring

theorem bound_le_listMean (l : List ℚ) {a : ℚ} (hl : l ≠ []) (h : ∀ x ∈ l, a ≤ x) :
    a ≤ listMean l := by
  have hlen : (0 : ℚ) < l.length := by
    have : 0 < l.length := List.length_pos.mpr hl
    exact_mod_cast this
  rw [listMean, le_div_iff₀ hlen]
  calc a * l.length = l.length • a := by rw [nsmul_eq_mul]; ring
  _ ≤ l.sum := List.card_nsmul_le_sum l a h

/-! ## C2 — Cronbach's alpha floor and degenerate cases -/

/-- C2 counterexample: on the two-item frame with columns `[1, 5]` and `[5, 2]`
(two respondents) the row sums are `[6, 7]`, so alpha
`= 2 * (1 - (8 + 9/2)/(1/2)) = -48`, and `StatisticalValidator
.calculate_reliability` reports that negative value unclamped: the claimed floor
at 0 does not hold for that function. -/
theorem cronbach_negative_counterexample :
    (ScoringSystem.calculate_reliability [[1, 5], [5, 2]]).cronbach_alpha =
      some (-48) ∧ (-48 : ℚ) < 0 := by
  have h1 : ScoringSystem.rowSums [[(1 : ℚ), 5], [5, 2]] = [6, 7] := by
    norm_num [ScoringSystem.rowSums, Barometer.transposeRows, List.range_succ]
  have h2 : Barometer.sampleVar [(6 : ℚ), 7] = 1 / 2 := by
    norm_num [Barometer.sampleVar, Barometer.devSq, Barometer.listMean]
  have h3 : Barometer.sampleVar [(1 : ℚ), 5] = 8 := by
    norm_num [Barometer.sampleVar, Barometer.devSq, Barometer.listMean]
  have h4 : Barometer.sampleVar [(5 : ℚ), 2] = 9 / 2 := by
    norm_num [Barometer.sampleVar, Barometer.devSq, Barometer.listMean]
  refine ⟨?_, by norm_num⟩
  simp only [ScoringSystem.calculate_reliability, ScoringSystem.frameEmptyCols, h1, h2, h3, h4]
  norm_num [h3, h4]

/-- C2 (amended): `PsychometricValidator._calculate_cronbach_alpha` satisfies the
claim in full — never negative, and exactly 0 with fewer than 2 items or zero
row-sum variance, with no exception.  `StatisticalValidator.calculate_reliability`
reports `reliable = false` in each of those degenerate cases without raising, but
it applies no non-negativity floor and no zero-variance guard: with fewer than 2
items it reports alpha 0, while a zero row-sum variance makes its reported alpha
the non-finite result of the unguarded division rather than 0. -/
theorem cronbach_alpha_floor (cols : List (List ℚ)) :
    (0 ≤ ValidationFramework.calculate_cronbach_alpha cols) ∧
    ((cols.length < 2 ∨ Barometer.sampleVar (ScoringSystem.rowSums cols) = 0) →
      ValidationFramework.calculate_cronbach_alpha cols = 0) ∧
    ((cols.length < 2 ∨ Barometer.sampleVar (ScoringSystem.rowSums cols) = 0) →
      (ScoringSystem.calculate_reliability cols).reliable = false) ∧
    (cols.length < 2 →
      (ScoringSystem.calculate_reliability cols).cronbach_alpha = some 0) := by
  refine ⟨?_, ?_, ?_, ?_⟩
  · simp only [ValidationFramework.calculate_cronbach_alpha]
    split_ifs <;> simp [le_max_left]
  · intro h
    simp only [ValidationFramework.calculate_cronbach_alpha]
    split_ifs with h1 h2 h3 <;> try rfl
    exfalso
    rcases h with h | h
    · exact h1 (by simp [h])
    · exact h3 h
  · intro h
    simp only [ScoringSystem.calculate_reliability]
    split_ifs with h1 h2 h3 <;> try rfl
    exfalso
    rcases h with h | h
    · exact h1 (by simp [h])
    · exact h3 h
  · intro h
    simp only [ScoringSystem.calculate_reliability]
    rw [if_pos (by simp [h])]


/-- C2 witness: the spec's end-to-end scenario C — two items both constant at 3
over two respondents have zero total variance, and the validator's alpha is
exactly 0 (no division error). -/
theorem cronbach_alpha_floor_witness :
    ValidationFramework.calculate_cronbach_alpha [[3, 3], [3, 3]] = 0 ∧
    (ScoringSystem.calculate_reliability [[3, 3], [3, 3]]).reliable = false := by
  have h := cronbach_alpha_floor [[3, 3], [3, 3]]
  have hr : ScoringSystem.rowSums [[(3 : ℚ), 3], [3, 3]] = [6, 6] := by
    norm_num [ScoringSystem.rowSums, Barometer.transposeRows, List.range_succ]
  have hv : Barometer.sampleVar (ScoringSystem.rowSums [[(3 : ℚ), 3], [3, 3]]) = 0 := by
    rw [hr]
    norm_num [Barometer.sampleVar, Barometer.devSq, Barometer.listMean]
  exact ⟨h.2.1 (Or.inr hv), h.2.2.1 (Or.inr hv)⟩

/-! ## C4 — dimension scores: linear scaling, bounds, monotonicity -/

/-- C4: for a dimension's response rows all within the 1-5 scale, the pipeline's
dimension score is the item mean times 20 (both per respondent and in aggregate),
every score lies in [0, 100], and the aggregate score is monotone in the item
mean. -/
theorem dimension_scores_linear_bounded (rows : List (List ℚ))
    (h : ∀ r ∈ rows, ∀ x ∈ r, (1 : ℚ) ≤ x ∧ x ≤ 5) :
    StatisticalPipeline.mean_score rows =
      listMean (rows.map listMean) * 20 ∧
    (∀ s ∈ StatisticalPipeline.individual_scores rows, (0 : ℚ) ≤ s ∧ s ≤ 100) ∧
    (0 ≤ StatisticalPipeline.mean_score rows ∧
      StatisticalPipeline.mean_score rows ≤ 100) ∧
    (∀ rows' : List (List ℚ),
      listMean (rows.map listMean) ≤ listMean (rows'.map listMean) →
      StatisticalPipeline.mean_score rows ≤ StatisticalPipeline.mean_score rows') := by
  have hlin : ∀ rs : List (List ℚ),
      StatisticalPipeline.mean_score rs = listMean (rs.map listMean) * 20 := by
    intro rs
    rw [StatisticalPipeline.mean_score, StatisticalPipeline.individual_scores,
      show (fun r : List ℚ => listMean r * 20) = (fun x : ℚ => x * 20) ∘ listMean from rfl,
      ← List.map_map, listMean_map_mul]
  have hscore : ∀ s ∈ StatisticalPipeline.individual_scores rows, (0 : ℚ) ≤ s ∧ s ≤ 100 := by
    intro s hs
    rw [StatisticalPipeline.individual_scores, List.mem_map] at hs
    obtain ⟨r, hr, rfl⟩ := hs
    rcases eq_or_ne r [] with rfl | hne
    · norm_num [listMean]
    · have h1 : (1 : ℚ) ≤ listMean r := bound_le_listMean r hne (fun x hx => (h r hr x hx).1)
      have h5 : listMean r ≤ 5 := listMean_le_bound r (by norm_num) (fun x hx => (h r hr x hx).2)
      constructor <;> nlinarith
  refine ⟨hlin rows, hscore, ?_, ?_⟩
  · constructor
    · exact listMean_nonneg _ (fun s hs => (hscore s hs).1)
    · exact listMean_le_bound _ (by norm_num) (fun s hs => (hscore s hs).2)
  · intro rows' hm
    rw [hlin rows, hlin rows']
    nlinarith

/-- C4 witness: the spec's end-to-end scenario A — every item scored 5 gives a
dimension score of 100 (here: within [0, 100] and equal to 20 times the item
mean 5). -/
theorem dimension_scores_linear_bounded_witness :
    StatisticalPipeline.mean_score [[(5 : ℚ), 5], [5, 5]] =
      listMean ([[(5 : ℚ), 5], [5, 5]].map listMean) * 20 ∧
    StatisticalPipeline.mean_score [[(5 : ℚ), 5], [5, 5]] ≤ 100 := by
  have h := dimension_scores_linear_bounded [[(5 : ℚ), 5], [5, 5]] (by norm_num)
  exact ⟨h.1, h.2.2.1.2⟩

/-! ## C5 — sample adequacy: totality and the p = 0 case -/

/-- C5 counterexample: with zero items the Python integer division
`n_responses / n_items` raises `ZeroDivisionError` while the result dictionary is
being built, so at n = 50, p = 0 the function fails instead of returning an
"inadequate" result. -/
theorem sample_adequacy_counterexample :
    ValidationFramework.assess_sample_adequacy 50 0 = none := rfl

/-- C5 (amended): for every response count n and every item count p ≥ 1 the
check returns a result with ratio n/p, the 5:1, 10:1 and Kline 20:1 booleans and
recommended minimum max(200, 10p); at p = 0 it raises `ZeroDivisionError`
instead of short-circuiting to "inadequate". -/
theorem sample_adequacy_total (n p : ℕ) (hp : p ≠ 0) :
    ∃ r, ValidationFramework.assess_sample_adequacy n p = some r ∧
      r.ratio * p = n ∧
      (r.adequacy_5_1 = true ↔ 5 * p ≤ n) ∧
      (r.adequacy_10_1 = true ↔ 10 * p ≤ n) ∧
      (r.kline_adequate = true ↔ 20 * p ≤ n) ∧
      r.recommended_minimum = max 200 (10 * p) ∧
      200 ≤ r.recommended_minimum ∧ 10 * p ≤ r.recommended_minimum := by
  have hpQ : (p : ℚ) ≠ 0 := Nat.cast_ne_zero.mpr hp
  unfold ValidationFramework.assess_sample_adequacy
  rw [if_neg hp]
  exact ⟨_, rfl, div_mul_cancel₀ _ hpQ, by simp, by simp, by simp, rfl,
    le_max_left _ _, le_max_right _ _⟩

/-- C5 witness: the spec's end-to-end scenario D — 50 respondents and 10 items
give ratio 5, `adequacy_5_1` true, the stricter rules false, recommended
minimum 200. -/
theorem sample_adequacy_total_witness :
    ∃ r, ValidationFramework.assess_sample_adequacy 50 10 = some r ∧
      r.ratio * 10 = 50 ∧
      (r.adequacy_5_1 = true ↔ 5 * 10 ≤ 50) ∧
      (r.adequacy_10_1 = true ↔ 10 * 10 ≤ 50) ∧
      (r.kline_adequate = true ↔ 20 * 10 ≤ 50) ∧
      r.recommended_minimum = max 200 (10 * 10) ∧
      200 ≤ r.recommended_minimum ∧ 10 * 10 ≤ r.recommended_minimum := by
  exact_mod_cast sample_adequacy_total 50 10 (by decide)

/-! ## C6 — maturity levels: ordered closed-above thresholds -/

/-- C6: each maturity mapping assigns every rational score exactly one level,
characterized by closed-above (≥) thresholds, so a score exactly at a boundary
takes the higher level: cut points 4.5/3.5/2.5/1.5 on the 1-5 scale and
80/60/40 on the 0-100 scale. -/
theorem maturity_level_thresholds (s : ℚ) :
    (ScoringSystem.get_maturity_level s = "Optimizing" ↔ 4.5 ≤ s) ∧
    (ScoringSystem.get_maturity_level s = "Quantitatively Managed" ↔
      3.5 ≤ s ∧ s < 4.5) ∧
    (ScoringSystem.get_maturity_level s = "Defined" ↔ 2.5 ≤ s ∧ s < 3.5) ∧
    (ScoringSystem.get_maturity_level s = "Managed" ↔ 1.5 ≤ s ∧ s < 2.5) ∧
    (ScoringSystem.get_maturity_level s = "Initial/Ad-hoc" ↔ s < 1.5) ∧
    (StatisticalPipeline.maturity_level_0_100 s = "Excellence" ↔ 80 ≤ s) ∧
    (StatisticalPipeline.maturity_level_0_100 s = "Amélioration" ↔
      60 ≤ s ∧ s < 80) ∧
    (StatisticalPipeline.maturity_level_0_100 s = "Développement" ↔
      40 ≤ s ∧ s < 60) ∧
    (StatisticalPipeline.maturity_level_0_100 s = "Initial" ↔ s < 40) := by
  refine ⟨?_, ?_, ?_, ?_, ?_, ?_, ?_, ?_, ?_⟩ <;>
    simp only [ScoringSystem.get_maturity_level,
      StatisticalPipeline.maturity_level_0_100] <;>
    split_ifs <;>
    simp_all <;>
    first
      | linarith
      | (constructor <;> linarith)
      | (intro h; linarith)

/-! ## C8 — weighted overall maturity and the zero total weight case -/

theorem sum_scored_weights (cols : List (String × List ℚ)) (weights : List (String × ℚ)) :
    ((cols.filterMap (fun c =>
        (List.lookup c.1 weights).map (fun w => (c.1, Barometer.listMean c.2, w)))).map
      (fun d => d.2.2)).sum =
    (cols.map (fun c => (List.lookup c.1 weights).getD 0)).sum := by
  induction cols with
  | nil => simp
  | cons c t ih => cases h : List.lookup c.1 weights <;> simp [h, ih]

theorem sum_scored_weighted (cols : List (String × List ℚ)) (weights : List (String × ℚ)) :
    ((cols.filterMap (fun c =>
        (List.lookup c.1 weights).map (fun w => (c.1, Barometer.listMean c.2, w)))).map
      (fun d => d.2.1 * d.2.2)).sum =
    (cols.map (fun c => Barometer.listMean c.2 * (List.lookup c.1 weights).getD 0)).sum := by
  induction cols with
  | nil => simp
  | cons c t ih => cases h : List.lookup c.1 weights <;> simp [h, ih]

/-- C8: on a non-empty frame with a supplied weights mapping, when the total
weight of the scored dimensions (those whose column name is a weights key) is
non-zero the overall maturity equals the weighted sum of the dimension means
divided by that total weight; when the total weight is zero the division raises
(`ZeroDivisionError`, `none` here) instead of silently returning a zero score. -/
theorem weighted_maturity_aggregate (cols : List (String × List ℚ))
    (weights : List (String × ℚ)) (hne : ScoringSystem.frameEmpty cols = false) :
    ((cols.map (fun c => (List.lookup c.1 weights).getD 0)).sum ≠ 0 →
      ∃ r, ScoringSystem.calculate_maturity cols weights = some r ∧
        r.overall_maturity =
          (cols.map (fun c => Barometer.listMean c.2 *
              (List.lookup c.1 weights).getD 0)).sum /
            (cols.map (fun c => (List.lookup c.1 weights).getD 0)).sum) ∧
    ((cols.map (fun c => (List.lookup c.1 weights).getD 0)).sum = 0 →
      ScoringSystem.calculate_maturity cols weights = none) := by
  constructor
  · intro hw
    simp only [ScoringSystem.calculate_maturity, hne, Bool.false_eq_true, if_false]
    rw [if_neg (by rw [sum_scored_weights]; exact hw)]
    exact ⟨_, rfl, by rw [sum_scored_weighted, sum_scored_weights]⟩
  · intro hw
    simp only [ScoringSystem.calculate_maturity, hne, Bool.false_eq_true, if_false]
    rw [if_pos (by rw [sum_scored_weights]; exact hw)]

/-- C8 witness: two dimensions with means 4 and 3 and weights 3 and 1 aggregate
to (4·3 + 3·1)/4 = 15/4; and a weights mapping matching no column has total
weight zero and surfaces an error rather than a zero score. -/
theorem weighted_maturity_aggregate_witness :
    (∃ r, ScoringSystem.calculate_maturity [("L", [4, 4]), ("P", [2, 4])]
        [("L", 3), ("P", 1)] = some r ∧ r.overall_maturity = 15 / 4) ∧
    ScoringSystem.calculate_maturity [("L", [4, 4]), ("P", [2, 4])] [("X", 1)] =
      none := by
  have l1 : List.lookup "L" [("L", (3 : ℚ)), ("P", 1)] = some 3 := rfl
  have l2 : List.lookup "P" [("L", (3 : ℚ)), ("P", 1)] = some 1 := rfl
  have l3 : List.lookup "L" [("X", (1 : ℚ))] = none := rfl
  have l4 : List.lookup "P" [("X", (1 : ℚ))] = none := rfl
  constructor
  · obtain ⟨r, hr, hval⟩ :=
      (weighted_maturity_aggregate [("L", [4, 4]), ("P", [2, 4])] [("L", 3), ("P", 1)]
        (by decide)).1
        (by simp only [List.map_cons, List.map_nil, l1, l2, Option.getD_some]; norm_num)
    refine ⟨r, hr, ?_⟩
    rw [hval]
    simp only [List.map_cons, List.map_nil, l1, l2, Option.getD_some]
    norm_num [Barometer.listMean]
  · exact (weighted_maturity_aggregate [("L", [4, 4]), ("P", [2, 4])] [("X", 1)]
      (by decide)).2
      (by simp only [List.map_cons, List.map_nil, l3, l4, Option.getD_none]; norm_num)

/-! ## C9 — clustering determinism under the fixed seed -/

/-- C9: the clustering analysis passes the hard-coded seed 42 to the clusterer,
so its result — assignments, sizes and centroids alike — does not depend on the
ambient random state: two runs on identical input data and identical dimension
structure coincide.  (The clusterer itself is library code modelled from the
spec's determinism contract; had the source passed no seed, the result would
depend on the ambient state `g` and this theorem would fail.) -/
theorem clustering_deterministic (g1 g2 : ℕ) (data : List (String × List ℚ))
    (struct : List (String × List String)) :
    StatisticalPipeline.perform_clustering_analysis g1 data struct =
      StatisticalPipeline.perform_clustering_analysis g2 data struct := rfl

/-! ## C7 — discriminant validity: the flag versus the pairwise correlations -/

theorem foldl_dinsert_fresh (ws acc : List (String × (ℚ × ℚ)))
    (hnd : (ws.map Prod.fst).Nodup)
    (hdisj : ∀ k ∈ ws.map Prod.fst, ∀ kv ∈ acc, kv.1 ≠ k) :
    ws.foldl (fun d kv => ValidationFramework.dinsert d kv.1 kv.2) acc = acc ++ ws := by
  induction ws generalizing acc with
  | nil => simp
  | cons w t ih =>
    simp only [List.map_cons, List.nodup_cons] at hnd
    have hnot : ¬ acc.any (fun kv => kv.1 == w.1) = true := by
      simp only [List.any_eq_true]
      rintro ⟨kv, hkv, hbeq⟩
      exact hdisj w.1 (by simp) kv hkv (by simpa using hbeq)
    rw [List.foldl_cons,
      show ValidationFramework.dinsert acc w.1 w.2 = acc ++ [w] from by
        rw [ValidationFramework.dinsert, if_neg hnot],
      ih (acc ++ [w]) hnd.2]
    · simp
    · intro k hk kv hkv
      rcases List.mem_append.mp hkv with hkv | hkv
      · exact hdisj k (by simp [hk]) kv hkv
      · have : kv = w := by simpa using hkv
        subst this
        intro hEq
        exact hnd.1 (hEq ▸ hk)

theorem dict_writes_of_nodup (data : List (String × List ℚ))
    (st : List (String × List String))
    (hkeys : ((ValidationFramework.corrWrites data st).map Prod.fst).Nodup) :
    ValidationFramework.inter_dimension_correlations data st =
      ValidationFramework.corrWrites data st := by
  simpa [ValidationFramework.inter_dimension_correlations] using
    foldl_dinsert_fresh (ValidationFramework.corrWrites data st) [] hkeys (by simp)

theorem mem_corrWrites {data : List (String × List ℚ)} {st : List (String × List String)}
    {kv : String × (ℚ × ℚ)} :
    kv ∈ ValidationFramework.corrWrites data st ↔
      ∃ d1 ∈ st, ∃ d2 ∈ st, d1.1 ≠ d2.1 ∧
        ValidationFramework.hasItems data (d1.2 ++ d2.2) = true ∧
        kv = (d1.1 ++ "_" ++ d2.1,
          ValidationFramework.corrData (ValidationFramework.meanScores data d1.2)
            (ValidationFramework.meanScores data d2.2)) := by
  simp only [ValidationFramework.corrWrites, List.mem_flatMap, List.mem_filterMap]
  constructor
  · rintro ⟨d1, h1, d2, h2, hif⟩
    by_cases hc : d1.1 ≠ d2.1 ∧ ValidationFramework.hasItems data (d1.2 ++ d2.2) = true
    · rw [if_pos hc] at hif
      exact ⟨d1, h1, d2, h2, hc.1, hc.2, (Option.some.inj hif).symm⟩
    · rw [if_neg hc] at hif
      exact absurd hif (by simp)
  · rintro ⟨d1, h1, d2, h2, hne, hhas, rfl⟩
    exact ⟨d1, h1, d2, h2, by rw [if_pos ⟨hne, hhas⟩]⟩

theorem map_getD_range (l : List ℚ) :
    (List.range l.length).map (fun i => l.getD i 0) = l := by
  apply List.ext_getElem
  · simp
  · intro i h1 h2
    simp [List.getD_eq_getElem?_getD, List.getElem?_eq_getElem h2]

theorem transposeRows_single (c : List ℚ) : (transposeRows [c]).map listMean = c := by
  rw [transposeRows, List.map_map]
  have h1 : (listMean ∘ fun i => [c].map (fun col => col.getD i 0)) =
      fun i => c.getD i 0 := by
    funext i
    simp [listMean]
  rw [h1, map_getD_range]

theorem meanScores_single (data : List (String × List ℚ)) (it : String) :
    ValidationFramework.meanScores data [it] = ValidationFramework.lookupCol data it := by
  rw [ValidationFramework.meanScores, List.map_cons, List.map_nil]
  exact transposeRows_single _

theorem zipWith_self_nonneg (l : List ℚ) : 0 ≤ (List.zipWith (· * ·) l l).sum := by
  induction l with
  | nil => simp
  | cons a t ih =>
    simp only [List.zipWith_cons_cons, List.sum_cons]
    nlinarith

theorem centeredDot_self_nonneg (a : List ℚ) :
    0 ≤ ValidationFramework.centeredDot a a :=
  zipWith_self_nonneg _

theorem corrBelowBound_of_zero (a b : List ℚ)
    (h0 : ValidationFramework.centeredDot a b = 0)
    (hv : ValidationFramework.centeredDot a a * ValidationFramework.centeredDot b b ≠ 0) :
    ValidationFramework.corrBelowBound (ValidationFramework.corrData a b) = true := by
  have ha := centeredDot_self_nonneg a
  have hb := centeredDot_self_nonneg b
  simp only [ValidationFramework.corrBelowBound, ValidationFramework.corrData, h0,
    decide_eq_true_eq]
  exact ⟨hv, by nlinarith [lt_of_le_of_ne (mul_nonneg ha hb) (Ne.symm hv)]⟩

/-- C7 counterexample: on `exData`/`exStruct` the underscore-joined dictionary
keys of the ordered pairs (A, B_C)/(A_B, C) and of (B_C, A)/(B, C_A) collide, the
later zero-correlation writes overwrite both entries recording the perfect
correlation between dimensions A and B_C, and `_assess_discriminant_validity`
flags the instrument discriminant-valid even though the distinct scored pair
(A, B_C) has |corr| = 1 ≥ 0.85. -/
theorem discriminant_valid_counterexample :
    ValidationFramework.discriminant_valid exData exStruct = true ∧
    ("A", ["x"]) ∈ exStruct ∧ ("B_C", ["x2"]) ∈ exStruct ∧
    ("A" : String) ≠ "B_C" ∧
    ValidationFramework.hasItems exData (["x"] ++ ["x2"]) = true ∧
    ValidationFramework.corrBelowBound
      (ValidationFramework.corrData (ValidationFramework.meanScores exData ["x"])
        (ValidationFramework.meanScores exData ["x2"])) = false := by
  have hm_x : ValidationFramework.meanScores exData ["x"] = exCol_x := by
    rw [meanScores_single]
    rfl
  have hm_x2 : ValidationFramework.meanScores exData ["x2"] = exCol_x := by
    rw [meanScores_single]
    rfl
  have hm_p : ValidationFramework.meanScores exData ["p"] = exCol_p := by
    rw [meanScores_single]
    rfl
  have hm_q : ValidationFramework.meanScores exData ["q"] = exCol_q := by
    rw [meanScores_single]
    rfl
  have hm_r : ValidationFramework.meanScores exData ["r"] = exCol_r := by
    rw [meanScores_single]
    rfl
  have hm_s : ValidationFramework.meanScores exData ["s"] = exCol_s := by
    rw [meanScores_single]
    rfl
  have hz_pq : ValidationFramework.centeredDot exCol_p exCol_q = 0 := by
    norm_num [ValidationFramework.centeredDot, listMean, exCol_p, exCol_q]
  have hz_xp : ValidationFramework.centeredDot exCol_x exCol_p = 0 := by
    norm_num [ValidationFramework.centeredDot, listMean, exCol_x, exCol_p]
  have hz_xq : ValidationFramework.centeredDot exCol_x exCol_q = 0 := by
    norm_num [ValidationFramework.centeredDot, listMean, exCol_x, exCol_q]
  have hz_xr : ValidationFramework.centeredDot exCol_x exCol_r = 0 := by
    norm_num [ValidationFramework.centeredDot, listMean, exCol_x, exCol_r]
  have hz_xs : ValidationFramework.centeredDot exCol_x exCol_s = 0 := by
    norm_num [ValidationFramework.centeredDot, listMean, exCol_x, exCol_s]
  have hz_rs : ValidationFramework.centeredDot exCol_r exCol_s = 0 := by
    norm_num [ValidationFramework.centeredDot, listMean, exCol_r, exCol_s]
  have hz_px : ValidationFramework.centeredDot exCol_p exCol_x = 0 := by
    norm_num [ValidationFramework.centeredDot, listMean, exCol_p, exCol_x]
  have hz_pr : ValidationFramework.centeredDot exCol_p exCol_r = 0 := by
    norm_num [ValidationFramework.centeredDot, listMean, exCol_p, exCol_r]
  have hz_ps : ValidationFramework.centeredDot exCol_p exCol_s = 0 := by
    norm_num [ValidationFramework.centeredDot, listMean, exCol_p, exCol_s]
  have hz_qx : ValidationFramework.centeredDot exCol_q exCol_x = 0 := by
    norm_num [ValidationFramework.centeredDot, listMean, exCol_q, exCol_x]
  have hz_sr : ValidationFramework.centeredDot exCol_s exCol_r = 0 := by
    norm_num [ValidationFramework.centeredDot, listMean, exCol_s, exCol_r]
  have hz_qr : ValidationFramework.centeredDot exCol_q exCol_r = 0 := by
    norm_num [ValidationFramework.centeredDot, listMean, exCol_q, exCol_r]
  have hz_qs : ValidationFramework.centeredDot exCol_q exCol_s = 0 := by
    norm_num [ValidationFramework.centeredDot, listMean, exCol_q, exCol_s]
  have hz_rx : ValidationFramework.centeredDot exCol_r exCol_x = 0 := by
    norm_num [ValidationFramework.centeredDot, listMean, exCol_r, exCol_x]
  have hz_rp : ValidationFramework.centeredDot exCol_r exCol_p = 0 := by
    norm_num [ValidationFramework.centeredDot, listMean, exCol_r, exCol_p]
  have hz_rq : ValidationFramework.centeredDot exCol_r exCol_q = 0 := by
    norm_num [ValidationFramework.centeredDot, listMean, exCol_r, exCol_q]
  have hz_sx : ValidationFramework.centeredDot exCol_s exCol_x = 0 := by
    norm_num [ValidationFramework.centeredDot, listMean, exCol_s, exCol_x]
  have hz_sp : ValidationFramework.centeredDot exCol_s exCol_p = 0 := by
    norm_num [ValidationFramework.centeredDot, listMean, exCol_s, exCol_p]
  have hz_sq : ValidationFramework.centeredDot exCol_s exCol_q = 0 := by
    norm_num [ValidationFramework.centeredDot, listMean, exCol_s, exCol_q]
  have hs_x : ValidationFramework.centeredDot exCol_x exCol_x = 2 := by
    norm_num [ValidationFramework.centeredDot, listMean, exCol_x]
  have hs_p : ValidationFramework.centeredDot exCol_p exCol_p = 2 := by
    norm_num [ValidationFramework.centeredDot, listMean, exCol_p]
  have hs_q : ValidationFramework.centeredDot exCol_q exCol_q = 4 := by
    norm_num [ValidationFramework.centeredDot, listMean, exCol_q]
  have hs_r : ValidationFramework.centeredDot exCol_r exCol_r = 2 := by
    norm_num [ValidationFramework.centeredDot, listMean, exCol_r]
  have hs_s : ValidationFramework.centeredDot exCol_s exCol_s = 12 := by
    norm_num [ValidationFramework.centeredDot, listMean, exCol_s]
  have hcb_pq :
      ValidationFramework.corrBelowBound (ValidationFramework.corrData exCol_p exCol_q) = true :=
    corrBelowBound_of_zero exCol_p exCol_q hz_pq (by rw [hs_p, hs_q]; norm_num)
  have hcb_xp :
      ValidationFramework.corrBelowBound (ValidationFramework.corrData exCol_x exCol_p) = true :=
    corrBelowBound_of_zero exCol_x exCol_p hz_xp (by rw [hs_x, hs_p]; norm_num)
  have hcb_xq :
      ValidationFramework.corrBelowBound (ValidationFramework.corrData exCol_x exCol_q) = true :=
    corrBelowBound_of_zero exCol_x exCol_q hz_xq (by rw [hs_x, hs_q]; norm_num)
  have hcb_xr :
      ValidationFramework.corrBelowBound (ValidationFramework.corrData exCol_x exCol_r) = true :=
    corrBelowBound_of_zero exCol_x exCol_r hz_xr (by rw [hs_x, hs_r]; norm_num)
  have hcb_xs :
      ValidationFramework.corrBelowBound (ValidationFramework.corrData exCol_x exCol_s) = true :=
    corrBelowBound_of_zero exCol_x exCol_s hz_xs (by rw [hs_x, hs_s]; norm_num)
  have hcb_rs :
      ValidationFramework.corrBelowBound (ValidationFramework.corrData exCol_r exCol_s) = true :=
    corrBelowBound_of_zero exCol_r exCol_s hz_rs (by rw [hs_r, hs_s]; norm_num)
  have hcb_px :
      ValidationFramework.corrBelowBound (ValidationFramework.corrData exCol_p exCol_x) = true :=
    corrBelowBound_of_zero exCol_p exCol_x hz_px (by rw [hs_p, hs_x]; norm_num)
  have hcb_pr :
      ValidationFramework.corrBelowBound (ValidationFramework.corrData exCol_p exCol_r) = true :=
    corrBelowBound_of_zero exCol_p exCol_r hz_pr (by rw [hs_p, hs_r]; norm_num)
  have hcb_ps :
      ValidationFramework.corrBelowBound (ValidationFramework.corrData exCol_p exCol_s) = true :=
    corrBelowBound_of_zero exCol_p exCol_s hz_ps (by rw [hs_p, hs_s]; norm_num)
  have hcb_qx :
      ValidationFramework.corrBelowBound (ValidationFramework.corrData exCol_q exCol_x) = true :=
    corrBelowBound_of_zero exCol_q exCol_x hz_qx (by rw [hs_q, hs_x]; norm_num)
  have hcb_sr :
      ValidationFramework.corrBelowBound (ValidationFramework.corrData exCol_s exCol_r) = true :=
    corrBelowBound_of_zero exCol_s exCol_r hz_sr (by rw [hs_s, hs_r]; norm_num)
  have hcb_qr :
      ValidationFramework.corrBelowBound (ValidationFramework.corrData exCol_q exCol_r) = true :=
    corrBelowBound_of_zero exCol_q exCol_r hz_qr (by rw [hs_q, hs_r]; norm_num)
  have hcb_qs :
      ValidationFramework.corrBelowBound (ValidationFramework.corrData exCol_q exCol_s) = true :=
    corrBelowBound_of_zero exCol_q exCol_s hz_qs (by rw [hs_q, hs_s]; norm_num)
  have hcb_rx :
      ValidationFramework.corrBelowBound (ValidationFramework.corrData exCol_r exCol_x) = true :=
    corrBelowBound_of_zero exCol_r exCol_x hz_rx (by rw [hs_r, hs_x]; norm_num)
  have hcb_rp :
      ValidationFramework.corrBelowBound (ValidationFramework.corrData exCol_r exCol_p) = true :=
    corrBelowBound_of_zero exCol_r exCol_p hz_rp (by rw [hs_r, hs_p]; norm_num)
  have hcb_rq :
      ValidationFramework.corrBelowBound (ValidationFramework.corrData exCol_r exCol_q) = true :=
    corrBelowBound_of_zero exCol_r exCol_q hz_rq (by rw [hs_r, hs_q]; norm_num)
  have hcb_sx :
      ValidationFramework.corrBelowBound (ValidationFramework.corrData exCol_s exCol_x) = true :=
    corrBelowBound_of_zero exCol_s exCol_x hz_sx (by rw [hs_s, hs_x]; norm_num)
  have hcb_sp :
      ValidationFramework.corrBelowBound (ValidationFramework.corrData exCol_s exCol_p) = true :=
    corrBelowBound_of_zero exCol_s exCol_p hz_sp (by rw [hs_s, hs_p]; norm_num)
  have hcb_sq :
      ValidationFramework.corrBelowBound (ValidationFramework.corrData exCol_s exCol_q) = true :=
    corrBelowBound_of_zero exCol_s exCol_q hz_sq (by rw [hs_s, hs_q]; norm_num)
  refine ⟨?_, by decide, by decide, by decide, by decide, ?_⟩
  · have hD : ValidationFramework.inter_dimension_correlations exData exStruct = [
      ("A_B_C", ValidationFramework.corrData (ValidationFramework.meanScores exData ["p"])
        (ValidationFramework.meanScores exData ["q"])),
      ("A_A_B", ValidationFramework.corrData (ValidationFramework.meanScores exData ["x"])
        (ValidationFramework.meanScores exData ["p"])),
      ("A_C", ValidationFramework.corrData (ValidationFramework.meanScores exData ["x"])
        (ValidationFramework.meanScores exData ["q"])),
      ("A_B", ValidationFramework.corrData (ValidationFramework.meanScores exData ["x"])
        (ValidationFramework.meanScores exData ["r"])),
      ("A_C_A", ValidationFramework.corrData (ValidationFramework.meanScores exData ["x"])
        (ValidationFramework.meanScores exData ["s"])),
      ("B_C_A", ValidationFramework.corrData (ValidationFramework.meanScores exData ["r"])
        (ValidationFramework.meanScores exData ["s"])),
      ("B_C_A_B", ValidationFramework.corrData (ValidationFramework.meanScores exData ["x2"])
        (ValidationFramework.meanScores exData ["p"])),
      ("B_C_C", ValidationFramework.corrData (ValidationFramework.meanScores exData ["x2"])
        (ValidationFramework.meanScores exData ["q"])),
      ("B_C_B", ValidationFramework.corrData (ValidationFramework.meanScores exData ["x2"])
        (ValidationFramework.meanScores exData ["r"])),
      ("B_C_C_A", ValidationFramework.corrData (ValidationFramework.meanScores exData ["x2"])
        (ValidationFramework.meanScores exData ["s"])),
      ("A_B_A", ValidationFramework.corrData (ValidationFramework.meanScores exData ["p"])
        (ValidationFramework.meanScores exData ["x"])),
      ("A_B_B_C", ValidationFramework.corrData (ValidationFramework.meanScores exData ["p"])
        (ValidationFramework.meanScores exData ["x2"])),
      ("A_B_B", ValidationFramework.corrData (ValidationFramework.meanScores exData ["p"])
        (ValidationFramework.meanScores exData ["r"])),
      ("A_B_C_A", ValidationFramework.corrData (ValidationFramework.meanScores exData ["p"])
        (ValidationFramework.meanScores exData ["s"])),
      ("C_A", ValidationFramework.corrData (ValidationFramework.meanScores exData ["q"])
        (ValidationFramework.meanScores exData ["x"])),
      ("C_B_C", ValidationFramework.corrData (ValidationFramework.meanScores exData ["q"])
        (ValidationFramework.meanScores exData ["x2"])),
      ("C_A_B", ValidationFramework.corrData (ValidationFramework.meanScores exData ["s"])
        (ValidationFramework.meanScores exData ["r"])),
      ("C_B", ValidationFramework.corrData (ValidationFramework.meanScores exData ["q"])
        (ValidationFramework.meanScores exData ["r"])),
      ("C_C_A", ValidationFramework.corrData (ValidationFramework.meanScores exData ["q"])
        (ValidationFramework.meanScores exData ["s"])),
      ("B_A", ValidationFramework.corrData (ValidationFramework.meanScores exData ["r"])
        (ValidationFramework.meanScores exData ["x"])),
      ("B_B_C", ValidationFramework.corrData (ValidationFramework.meanScores exData ["r"])
        (ValidationFramework.meanScores exData ["x2"])),
      ("B_A_B", ValidationFramework.corrData (ValidationFramework.meanScores exData ["r"])
        (ValidationFramework.meanScores exData ["p"])),
      ("B_C", ValidationFramework.corrData (ValidationFramework.meanScores exData ["r"])
        (ValidationFramework.meanScores exData ["q"])),
      ("C_A_A", ValidationFramework.corrData (ValidationFramework.meanScores exData ["s"])
        (ValidationFramework.meanScores exData ["x"])),
      ("C_A_B_C", ValidationFramework.corrData (ValidationFramework.meanScores exData ["s"])
        (ValidationFramework.meanScores exData ["x2"])),
      ("C_A_A_B", ValidationFramework.corrData (ValidationFramework.meanScores exData ["s"])
        (ValidationFramework.meanScores exData ["p"])),
      ("C_A_C", ValidationFramework.corrData (ValidationFramework.meanScores exData ["s"])
        (ValidationFramework.meanScores exData ["q"]))] := rfl
    rw [ValidationFramework.discriminant_valid, hD]
    simp only [List.map_cons, List.map_nil, List.all_cons, List.all_nil,
      hm_x, hm_x2, hm_p, hm_q, hm_r, hm_s,
      hcb_pq, hcb_pr, hcb_ps, hcb_px, hcb_qr, hcb_qs, hcb_qx, hcb_rp, hcb_rq, hcb_rs, hcb_rx, hcb_sp, hcb_sq, hcb_sr, hcb_sx, hcb_xp, hcb_xq, hcb_xr, hcb_xs, Bool.true_and, Bool.and_self]
  · rw [hm_x, hm_x2]
    simp only [ValidationFramework.corrBelowBound, ValidationFramework.corrData, hs_x,
      decide_eq_false_iff_not]
    norm_num

/-- C7 (amended): provided the underscore-joined dictionary keys of the distinct
scored ordered pairs are pairwise distinct (no key collision), the instrument is
flagged discriminant-valid iff every pair of distinct scored dimensions has a
defined Pearson correlation of absolute value below 0.85 between their
per-respondent mean scores (`corrBelowBound` states `|corr| < 0.85` through the
stored pair: a positive variance product and squared covariance below 0.85² times
it).  With colliding keys an offending pair's correlation can be overwritten and
the flag can hold regardless, as the counterexample shows. -/
theorem discriminant_valid_iff (data : List (String × List ℚ))
    (st : List (String × List String))
    (hkeys : ((ValidationFramework.corrWrites data st).map Prod.fst).Nodup) :
    ValidationFramework.discriminant_valid data st = true ↔
      ∀ d1 ∈ st, ∀ d2 ∈ st, d1.1 ≠ d2.1 →
        ValidationFramework.hasItems data (d1.2 ++ d2.2) = true →
        ValidationFramework.corrBelowBound
          (ValidationFramework.corrData (ValidationFramework.meanScores data d1.2)
            (ValidationFramework.meanScores data d2.2)) = true := by
  rw [ValidationFramework.discriminant_valid, dict_writes_of_nodup data st hkeys,
    List.all_eq_true]
  constructor
  · intro h d1 h1 d2 h2 hne hhas
    exact h _ (List.mem_map_of_mem _
      (mem_corrWrites.mpr ⟨d1, h1, d2, h2, hne, hhas, rfl⟩))
  · intro h v hv
    rw [List.mem_map] at hv
    obtain ⟨kv, hkv, rfl⟩ := hv
    obtain ⟨d1, h1, d2, h2, hne, hhas, rfl⟩ := mem_corrWrites.mp hkv
    exact h d1 h1 d2 h2 hne hhas

/-- C7 witness: two collision-free dimensions whose mean scores correlate at 1/2
are flagged discriminant-valid through the equivalence. -/
theorem discriminant_valid_iff_witness :
    ValidationFramework.discriminant_valid
      [("x", [1, 2, 3]), ("y", [1, 3, 2])] [("D1", ["x"]), ("D2", ["y"])] = true := by
  have w1 : ValidationFramework.meanScores [("x", [(1 : ℚ), 2, 3]), ("y", [1, 3, 2])] ["x"] =
      [1, 2, 3] := by
    rw [meanScores_single]
    rfl
  have w2 : ValidationFramework.meanScores [("x", [(1 : ℚ), 2, 3]), ("y", [1, 3, 2])] ["y"] =
      [1, 3, 2] := by
    rw [meanScores_single]
    rfl
  refine (discriminant_valid_iff _ _ (by decide)).mpr ?_
  intro d1 h1 d2 h2 hne hhas
  simp only [List.mem_cons, List.not_mem_nil, or_false] at h1 h2
  rcases h1 with rfl | rfl <;> rcases h2 with rfl | rfl
  · exact absurd rfl hne
  · show ValidationFramework.corrBelowBound
      (ValidationFramework.corrData
        (ValidationFramework.meanScores [("x", [(1 : ℚ), 2, 3]), ("y", [1, 3, 2])] ["x"])
        (ValidationFramework.meanScores [("x", [(1 : ℚ), 2, 3]), ("y", [1, 3, 2])] ["y"])) = true
    rw [w1, w2]
    norm_num [ValidationFramework.corrBelowBound, ValidationFramework.corrData,
      ValidationFramework.centeredDot, listMean, decide_eq_true_eq]
  · show ValidationFramework.corrBelowBound
      (ValidationFramework.corrData
        (ValidationFramework.meanScores [("x", [(1 : ℚ), 2, 3]), ("y", [1, 3, 2])] ["y"])
        (ValidationFramework.meanScores [("x", [(1 : ℚ), 2, 3]), ("y", [1, 3, 2])] ["x"])) = true
    rw [w1, w2]
    norm_num [ValidationFramework.corrBelowBound, ValidationFramework.corrData,
      ValidationFramework.centeredDot, listMean, decide_eq_true_eq]
  · exact absurd rfl hne

end Barometer
